import Mathlib

/-!
Verification development for the gevent_socketio2 transport layer.

The development shallowly embeds, in Lean 4, the parts of the repository
that the behavioural claims talk about:

* the binary attachment codec (`Binary.deconstruct_packet` /
  `Binary.reconstruct_packet`); its implementation module is not part of
  the checked sources (only its test suite is), so it is modelled from the
  specification text, as flagged on each definition;
* the transport hierarchy of `socketio_client/engine/transports.py`
  (`Transport`, `PollingTransport`, `XHRPollingTransport`,
  `WebsocketTransport`): ready-state lifecycle, `send`, `close`,
  the polling `on_data` payload loop, `pause`, the `uri` builders and the
  XHR status-code handling.

External collaborators (the packet parser, the HTTP client, the WebSocket
client, gevent) are modelled at their interface boundary: payloads arrive
as already-decoded packet lists, writes are recorded rather than posted,
and the gevent `Event.wait` is modelled by inspecting the flag that
`Event.set` would have raised.
-/

namespace Binary

mutual

/-- Modelled from the spec: the data trees handled by `socketio.binary`
(module absent from the checked sources; only `tests/test_binary.py` is
present).  A tree is built from text, numbers, booleans, null, raw binary
blobs (Python `bytearray`, modelled as a list of bytes), arrays, and
string-keyed maps, nested at arbitrary depth.  The three types are a
mutual presentation of one nested inductive so that all recursions below
are structural. -/
inductive BData where
  | text (s : String)
  | num (n : Int)
  | boolean (b : Bool)
  | null
  | bin (bytes : List Nat)
  | arr (xs : BDataList)
  | map (kvs : BDataMap)

/-- Modelled from the spec: a sequence of data trees (array elements in
index order). -/
inductive BDataList where
  | nil
  | cons (hd : BData) (tl : BDataList)

/-- Modelled from the spec: the entries of a map, in the map's natural
iteration order. -/
inductive BDataMap where
  | nil
  | cons (key : String) (val : BData) (tl : BDataMap)
end

mutual

/-- Modelled from the spec: the JSON-safe skeleton tree produced by
deconstruction: every raw binary blob has been replaced by a placeholder
token carrying its buffer index. -/
inductive BSkel where
  | text (s : String)
  | num (n : Int)
  | boolean (b : Bool)
  | null
  | placeholder (idx : Nat)
  | arr (xs : BSkelList)
  | map (kvs : BSkelMap)

/-- Modelled from the spec: a sequence of skeleton trees. -/
inductive BSkelList where
  | nil
  | cons (hd : BSkel) (tl : BSkelList)

/-- Modelled from the spec: the entries of a skeleton map. -/
inductive BSkelMap where
  | nil
  | cons (key : String) (val : BSkel) (tl : BSkelMap)
end

mutual

/-- Modelled from the spec: one step of `Binary.deconstruct_packet`'s
depth-first traversal.  `bufs` is the accumulator of binary buffers
extracted so far; a raw binary leaf becomes `placeholder bufs.length`
(indices are assigned in traversal order, starting at 0) and its bytes are
appended to the buffer list; every other leaf is copied unchanged;
arrays and maps recurse into their elements in natural order. -/
def deconstructData : BData → List (List Nat) → BSkel × List (List Nat)
  | .text s, bufs => (.text s, bufs)
  | .num n, bufs => (.num n, bufs)
  | .boolean b, bufs => (.boolean b, bufs)
  | .null, bufs => (.null, bufs)
  | .bin bytes, bufs => (.placeholder bufs.length, bufs ++ [bytes])
  | .arr xs, bufs =>
    let r := deconstructList xs bufs
    (.arr r.1, r.2)
  | .map kvs, bufs =>
    let r := deconstructMap kvs bufs
    (.map r.1, r.2)

/-- Modelled from the spec: deconstruction of array elements, left to
right, threading the buffer accumulator. -/
def deconstructList : BDataList → List (List Nat) → BSkelList × List (List Nat)
  | .nil, bufs => (.nil, bufs)
  | .cons d tl, bufs =>
    let r1 := deconstructData d bufs
    let r2 := deconstructList tl r1.2
    (.cons r1.1 r2.1, r2.2)

/-- Modelled from the spec: deconstruction of map entries in iteration
order, threading the buffer accumulator. -/
def deconstructMap : BDataMap → List (List Nat) → BSkelMap × List (List Nat)
  | .nil, bufs => (.nil, bufs)
  | .cons k v tl, bufs =>
    let r1 := deconstructData v bufs
    let r2 := deconstructMap tl r1.2
    (.cons k r1.1 r2.1, r2.2)
end

mutual

/-- Modelled from the spec: one step of `Binary.reconstruct_packet`'s
inverse traversal: every placeholder token is replaced by
`buffers[token.num]`; all other values pass through unchanged. -/
def reconstructData : BSkel → List (List Nat) → BData
  | .text s, _ => .text s
  | .num n, _ => .num n
  | .boolean b, _ => .boolean b
  | .null, _ => .null
  | .placeholder idx, bufs => .bin (bufs.getD idx [])
  | .arr xs, bufs => .arr (reconstructList xs bufs)
  | .map kvs, bufs => .map (reconstructMap kvs bufs)

/-- Modelled from the spec: reconstruction of array elements. -/
def reconstructList : BSkelList → List (List Nat) → BDataList
  | .nil, _ => .nil
  | .cons s tl, bufs => .cons (reconstructData s bufs) (reconstructList tl bufs)

/-- Modelled from the spec: reconstruction of map entries. -/
def reconstructMap : BSkelMap → List (List Nat) → BDataMap
  | .nil, _ => .nil
  | .cons k s tl, bufs => .cons k (reconstructData s bufs) (reconstructMap tl bufs)
end

/-- Modelled from the spec: a packet handed to `Binary.deconstruct_packet`:
a type tag plus a data tree. -/
structure BPacket where
  type_ : String
  data : BData

/-- Modelled from the spec: the skeleton packet produced by
`Binary.deconstruct_packet`: same type tag, skeleton data, and an
`attachments` count stored on the packet exactly when at least one buffer
was extracted. -/
structure BSkelPacket where
  type_ : String
  data : BSkel
  attachments : Option Nat

/-- Modelled from the spec: the result record of
`Binary.deconstruct_packet`: the skeleton packet plus the ordered buffer
list. -/
structure DeconResult where
  packet : BSkelPacket
  buffers : List (List Nat)

/-- Modelled from the spec: `Binary.deconstruct_packet` - traverse the
packet's data depth-first, extract every raw binary blob into `buffers`
in traversal order, and set `attachments` when `buffers` is non-empty. -/
def deconstruct_packet (p : BPacket) : DeconResult :=
  let r := deconstructData p.data []
  { packet :=
      { type_ := p.type_
        data := r.1
        attachments := if 0 < r.2.length then some r.2.length else none }
    buffers := r.2 }

/-- Modelled from the spec: `Binary.reconstruct_packet` - replace every
placeholder in the skeleton by the buffer at its index, dropping the
`attachments` bookkeeping field. -/
def reconstruct_packet (sp : BSkelPacket) (buffers : List (List Nat)) : BPacket :=
  { type_ := sp.type_, data := reconstructData sp.data buffers }

end Binary

namespace Engine

/-- An engine.io packet as handled by the transport layer: a type tag
(such as `message`, `close`, `open`) and optional textual data.  The wire
codec (`socketio.engine.parser`) is an external collaborator, so payloads
enter the model as already-decoded packet lists. -/
structure EnginePacket where
  type_ : String
  data : Option String
deriving DecidableEq, Repr

/-- The mutable state of one transport object, following the attributes
set in `Transport.__init__` and `PollingTransport.__init__`.  Observable
effects are recorded in logs: `emitted` lists the event names emitted (in
order), `dispatched` the packets forwarded through `on_packet`, and
`written` the packet lists handed to `write`.  `close_deferred` records
that `PollingTransport.on_close` registered a once-listener on `open` to
send the close packet later. -/
structure EngineState where
  path : String
  hostname : String
  port : Option Nat
  secure : Bool
  ready_state : Option String
  writable : Bool
  force_base64 : Bool
  supports_binary : Bool
  sid : Option String
  polling : Bool
  emitted : List String
  dispatched : List EnginePacket
  written : List (List EnginePacket)
  close_deferred : Bool
deriving DecidableEq, Repr

/-- State produced by `Transport.__init__` / `PollingTransport.__init__`:
no ready state, not writable, no session id, not polling, binary support
is the negation of the base64 forcing flag. -/
def initTransport (path hostname : String) (port : Option Nat)
    (secure force_base64 : Bool) : EngineState :=
  { path := path
    hostname := hostname
    port := port
    secure := secure
    ready_state := none
    writable := false
    force_base64 := force_base64
    supports_binary := !force_base64
    sid := none
    polling := false
    emitted := []
    dispatched := []
    written := []
    close_deferred := false }

/-- A convenient concrete transport state used by witnesses and
counterexamples. -/
def sampleState : EngineState :=
  initTransport "/engine.io/" "localhost" (some 8000) false false

/-- Argument of `Transport.send`: Python accepts either a single packet or
a list/tuple of packets. -/
def Packets : Type := Sum EnginePacket (List EnginePacket)

/-- Embedding of `Transport.send`: when `ready_state` is `open`, a single
packet is normalized into a one-element list and the result is the packet
list handed to `self.write`; in any other state a `ValueError` with
message `Transport not open` is raised and no write happens (the `ok`
value is, by construction, exactly what reaches the write path). -/
def send (st : EngineState) (packets : Packets) : Except String (List EnginePacket) :=
  if st.ready_state = some "open" then
    match packets with
    | .inl p => .ok [p]
    | .inr ps => .ok ps
  else
    .error "Transport not open"

/-- The concrete transport kinds registered in `available_transports`. -/
inductive TransportKind where
  | xhrPolling
  | websocket
deriving DecidableEq, Repr

/-- Embedding of `do_close` dispatch: `Transport.do_close` raises
`NotImplementedError` (the source carries a FIXME noting that no subclass
implements it), and neither `PollingTransport`, `XHRPollingTransport` nor
`WebsocketTransport` overrides it, so every kind raises. -/
def do_close (_k : TransportKind) : Except String Unit :=
  .error "NotImplementedError"

/-- Embedding of the base `Transport.on_close`: set `ready_state` to
`closed` and emit the `close` event. -/
def transportOnClose (st : EngineState) : EngineState :=
  { st with ready_state := some "closed", emitted := st.emitted ++ ["close"] }

/-- Embedding of `Transport.close`: only acts when `ready_state` is
`opening` or `open`; then `do_close()` runs first and `on_close()` after
it.  Because `do_close` raises for every kind, the raise propagates and
`on_close` is never reached; outside those two states the call is a
no-op returning the unchanged state. -/
def close (k : TransportKind) (st : EngineState) : Except String EngineState :=
  if st.ready_state = some "opening" ∨ st.ready_state = some "open" then
    match do_close k with
    | .error e => .error e
    | .ok _ => .ok (transportOnClose st)
  else
    .ok st

/-- Embedding of the port fragment computed by `PollingTransport.uri`:
empty when `self.port is None`, and empty when the port is the scheme
default (443 for https, 80 for http); otherwise `:<port>`. -/
def pollingPortSegment (secure : Bool) : Option Nat → String
  | none => ""
  | some p =>
    if (secure && p != 443) || (!secure && p != 80) then ":" ++ toString p else ""

/-- Embedding of the port fragment computed by `WebsocketTransport.uri`:
guarded by Python truthiness of `self.port` (absent or zero gives no
fragment) and by the comparisons in the source, which test `433` (not
`443`) for the `wss` scheme and `80` for `ws`. -/
def websocketPortSegment (secure : Bool) : Option Nat → String
  | none => ""
  | some p =>
    if p != 0 && ((secure && p != 433) || (!secure && p != 80)) then ":" ++ toString p else ""

/-- The query parameters assembled by the two `uri` methods.  `eio`,
`transport` and `t` are always present; `sid` and `b64` are optional.
Because Python 2 dict iteration order is unspecified, the query is
modelled as a record of key presence rather than as a rendered string. -/
structure UriQuery where
  eio : Nat
  transport : String
  t : Nat
  sid : Option String
  b64 : Bool
deriving DecidableEq, Repr

/-- Python truthiness of the `sid` attribute (`if self.sid:`): false for
`None` and for the empty string. -/
def sidTruthy : Option String → Bool
  | none => false
  | some s => s != ""

/-- Embedding of the query dict built by `PollingTransport.uri`: base keys
`EIO`, `transport`, `t`; `sid` is added when `self.sid is not None`; `b64`
is added when binary is unsupported and `sid` is still `None`. -/
def pollingUriQuery (pv t : Nat) (supports_binary : Bool) (sid : Option String) : UriQuery :=
  let q : UriQuery := { eio := pv, transport := "polling", t := t, sid := none, b64 := false }
  let q := match sid with
    | some s => { q with sid := some s }
    | none => q
  let q := if !supports_binary && sid.isNone then { q with b64 := true } else q
  q

/-- Embedding of the query dict built by `WebsocketTransport.uri`: base
keys `EIO`, `transport`, `t`; `sid` is added when `self.sid` is truthy;
`b64` is added whenever binary is unsupported, with no condition on
`sid`. -/
def websocketUriQuery (pv t : Nat) (supports_binary : Bool) (sid : Option String) : UriQuery :=
  let q : UriQuery := { eio := pv, transport := "websocket", t := t, sid := none, b64 := false }
  let q := if sidTruthy sid then { q with sid := sid } else q
  let q := if !supports_binary then { q with b64 := true } else q
  q

/-- Outcome of an XHR response handler: hand the response to the load
path, report an error event, or do nothing at all (the response is
discarded). -/
inductive XhrAction where
  | onLoad
  | onError (msg : String)
  | ignored
deriving DecidableEq, Repr

/-- Embedding of the status-code dispatch in `XHRPollingTransport.do_poll`:
a 2xx response goes to `on_load`; a status of 400 or above raises
`on_error('xhr request failed', ...)`; any other status (the 3xx range)
falls through both branches and the response is discarded. -/
def xhr_do_poll (status : Nat) : XhrAction :=
  if 200 ≤ status ∧ status < 300 then .onLoad
  else if 400 ≤ status then .onError "xhr request failed"
  else .ignored

/-- Embedding of the status-code dispatch in
`XHRPollingTransport.do_write`: a 2xx response returns silently; every
other status (including 3xx) raises `on_error('xhr request failed', ...)`,
reported here as the error message. -/
def xhr_do_write (status : Nat) : Option String :=
  if 200 ≤ status ∧ status < 300 then none
  else some "xhr request failed"

/-- Embedding of `Transport.on_open`: set `ready_state` to `open`, mark
the transport writable, and emit the `open` event. -/
def onOpen (st : EngineState) : EngineState :=
  { st with ready_state := some "open", writable := true, emitted := st.emitted ++ ["open"] }

/-- Embedding of `Transport.on_packet`: emit the `packet` event; the
packet is recorded as dispatched. -/
def onPacket (st : EngineState) (p : EnginePacket) : EngineState :=
  { st with emitted := st.emitted ++ ["packet"], dispatched := st.dispatched ++ [p] }

/-- Embedding of `PollingTransport.write`: clear `writable`, encode the
packet list through the external parser and hand it to `do_write`
(recorded in `written`; the underlying POST is an external collaborator
assumed to succeed), then restore `writable` and emit `drain`. -/
def pollingWrite (st : EngineState) (packets : List EnginePacket) : EngineState :=
  { st with writable := true
            written := st.written ++ [packets]
            emitted := st.emitted ++ ["drain"] }

/-- The close-typed packet written by `PollingTransport.on_close`. -/
def pktClose : EnginePacket := { type_ := "close", data := none }

/-- Embedding of `PollingTransport.on_close` (which overrides, and does
not call, the base `Transport.on_close`): when the transport is `open` it
writes a close-typed packet at once; otherwise it defers the close write
behind a once-listener on the `open` event.  Note that it never touches
`ready_state`. -/
def pollingOnClose (st : EngineState) : EngineState :=
  if st.ready_state = some "open" then pollingWrite st [pktClose]
  else { st with close_deferred := true }

/-- Embedding of the packet loop inside `PollingTransport.on_data`: for
each decoded packet, first promote an `opening` transport to `open`, then
either tear down on a close-typed packet (returning the halt flag `true`,
which models the early `return False`) or dispatch the packet and
continue. -/
def onDataLoop (st : EngineState) : List EnginePacket → EngineState × Bool
  | [] => (st, false)
  | p :: rest =>
    let st1 := if st.ready_state = some "opening" then onOpen st else st
    if p.type_ = "close" then (pollingOnClose st1, true)
    else onDataLoop (onPacket st1 p) rest

/-- Embedding of `PollingTransport.on_data`.  The payload arrives as the
packet list the external parser would decode.  The first component is the
Python return value (`False` after a close packet, `True` to ask the
outer loop for the next poll, `None` otherwise) or the message of the
`ValueError` raised when an open transport still has no `sid`; the second
component is the state of the transport object afterwards, raise or
not. -/
def pollingOnData (st : EngineState) (payload : List EnginePacket) :
    Except String (Option Bool) × EngineState :=
  let r := onDataLoop st payload
  if r.2 then (.ok (some false), r.1)
  else if r.1.ready_state = some "open" ∧ r.1.sid = none then
    (.error "sid is none after on_open, forgot setting sid in engine_socket?", r.1)
  else if r.1.ready_state ≠ some "closed" then
    let st2 := { r.1 with polling := false, emitted := r.1.emitted ++ ["poll_complete"] }
    if st2.ready_state = some "open" then (.ok (some true), st2) else (.ok none, st2)
  else
    (.ok none, r.1)

/-- Cumulative effect on the transport state of dispatching a list of
packets through `on_packet`: used to state the `on_data` lemmas. -/
def dispatchRun (st : EngineState) (ps : List EnginePacket) : EngineState :=
  { st with dispatched := st.dispatched ++ ps
            emitted := st.emitted ++ List.replicate ps.length "packet" }

/-- The synchronization context built by `PollingTransport.pause`:
`ready_state` of the transport, the shared countdown `total`, whether a
gevent `Event` was allocated (`nowait` false), whether `Event.set` has
been called, and which of the two once-listeners (`poll_complete`,
`drain`) are still registered. -/
structure PauseCtx where
  ready_state : String
  total : Int
  has_event : Bool
  event_set : Bool
  listen_poll_complete : Bool
  listen_drain : Bool
deriving DecidableEq, Repr

/-- Embedding of the local `pause()` closure inside
`PollingTransport.pause`: set `ready_state` to `paused` and signal the
gevent event when one was allocated. -/
def pauseFinish (c : PauseCtx) : PauseCtx :=
  { c with ready_state := "paused", event_set := c.event_set || c.has_event }

/-- Embedding of the shared `on_poll_complete` closure: decrement the
countdown and, when it reaches zero (Python falsiness of the counter),
complete the pause. -/
def pauseHandler (c : PauseCtx) : PauseCtx :=
  let c := { c with total := c.total - 1 }
  if c.total = 0 then pauseFinish c else c

/-- Embedding of the body of `PollingTransport.pause` up to (but not
including) the blocking wait: set `pausing`; when a poll is in flight or
a write is pending, register one once-listener per outstanding condition
and bump the countdown for each; otherwise pause immediately. -/
def pauseSetup (polling writable nowait : Bool) : PauseCtx :=
  let c : PauseCtx :=
    { ready_state := "pausing"
      total := 0
      has_event := !nowait
      event_set := false
      listen_poll_complete := false
      listen_drain := false }
  if polling || !writable then
    let c := { c with total := 0 }
    let c := if polling then { c with total := c.total + 1, listen_poll_complete := true } else c
    let c := if !writable then { c with total := c.total + 1, listen_drain := true } else c
    c
  else
    pauseFinish c

/-- The two events the pause listeners subscribe to. -/
inductive PauseEv where
  | pollComplete
  | drain
deriving DecidableEq, Repr

/-- Firing one event against the pause context: a still-registered
once-listener is deregistered and its handler runs; an event with no
listener is a no-op. -/
def fireEvent (c : PauseCtx) : PauseEv → PauseCtx
  | .pollComplete =>
    if c.listen_poll_complete then pauseHandler { c with listen_poll_complete := false } else c
  | .drain =>
    if c.listen_drain then pauseHandler { c with listen_drain := false } else c

/-- Firing a sequence of events, in order, against the pause context. -/
def runPause (c : PauseCtx) : List PauseEv → PauseCtx
  | [] => c
  | e :: evs => runPause (fireEvent c e) evs

/-- Embedding of the tail of `PollingTransport.pause` when `nowait` is
false: `context['event'].wait(timeout)` returns whether the event has
been signalled by the deadline; on `True` the call returns normally, on
`False` it raises `RuntimeWarning('The pause timeout')`.  The flag value
models what the blocking wait observes at its decision point. -/
def pauseWait (c : PauseCtx) : Except String Unit :=
  if c.event_set then .ok () else .error "The pause timeout"

/-- The four reachable pause contexts of the `polling ∧ not writable`
scenario, indexed by which of the two events have fired so far; used to
characterize `runPause`. -/
def pauseStateAt : Bool → Bool → PauseCtx
  | false, false => pauseSetup true false false
  | true, false => fireEvent (pauseSetup true false false) .pollComplete
  | false, true => fireEvent (pauseSetup true false false) .drain
  | true, true => fireEvent (fireEvent (pauseSetup true false false) .pollComplete) .drain

/-- A sample message packet carrying `a`. -/
def pktMsgA : EnginePacket := { type_ := "message", data := some "a" }

/-- A sample message packet carrying `b`. -/
def pktMsgB : EnginePacket := { type_ := "message", data := some "b" }

/-- An open polling transport with a known session id, a poll in flight
and no pending write. -/
def openPollingState : EngineState :=
  { sampleState with ready_state := some "open", writable := true, polling := true, sid := some "abc" }

/-- An open polling transport that has never learned its session id. -/
def openNoSidState : EngineState :=
  { sampleState with ready_state := some "open", writable := true, polling := true }


end Engine

namespace Binary

theorem getD_append_cons {α : Type} (l : List α) (x : α) (r : List α) (dflt : α) :
    (l ++ x :: r).getD l.length dflt = x := by
  induction l with
  | nil => rfl
  | cons hd tl ih => simpa using ih

mutual

theorem deconstructData_extends (d : BData) (bufs : List (List Nat)) :
    ∃ extra, (deconstructData d bufs).2 = bufs ++ extra := by
  cases d with
  | text s => exact ⟨[], by simp [deconstructData]⟩
  | num n => exact ⟨[], by simp [deconstructData]⟩
  | boolean b => exact ⟨[], by simp [deconstructData]⟩
  | null => exact ⟨[], by simp [deconstructData]⟩
  | bin bytes => exact ⟨[bytes], by simp [deconstructData]⟩
  | arr xs =>
    obtain ⟨extra, h⟩ := deconstructList_extends xs bufs
    exact ⟨extra, by simpa [deconstructData] using h⟩
  | map kvs =>
    obtain ⟨extra, h⟩ := deconstructMap_extends kvs bufs
    exact ⟨extra, by simpa [deconstructData] using h⟩

theorem deconstructList_extends (xs : BDataList) (bufs : List (List Nat)) :
    ∃ extra, (deconstructList xs bufs).2 = bufs ++ extra := by
  cases xs with
  | nil => exact ⟨[], by simp [deconstructList]⟩
  | cons d tl =>
    obtain ⟨e1, h1⟩ := deconstructData_extends d bufs
    obtain ⟨e2, h2⟩ := deconstructList_extends tl (deconstructData d bufs).2
    refine ⟨e1 ++ e2, ?_⟩
    simp only [deconstructList]
    rw [h2, h1, List.append_assoc]

theorem deconstructMap_extends (kvs : BDataMap) (bufs : List (List Nat)) :
    ∃ extra, (deconstructMap kvs bufs).2 = bufs ++ extra := by
  cases kvs with
  | nil => exact ⟨[], by simp [deconstructMap]⟩
  | cons k v tl =>
    obtain ⟨e1, h1⟩ := deconstructData_extends v bufs
    obtain ⟨e2, h2⟩ := deconstructMap_extends tl (deconstructData v bufs).2
    refine ⟨e1 ++ e2, ?_⟩
    simp only [deconstructMap]
    rw [h2, h1, List.append_assoc]
end

mutual

theorem reconstructData_deconstructData (d : BData) (bufs rest : List (List Nat)) :
    reconstructData (deconstructData d bufs).1 ((deconstructData d bufs).2 ++ rest) = d := by
  cases d with
  | text s => simp [deconstructData, reconstructData]
  | num n => simp [deconstructData, reconstructData]
  | boolean b => simp [deconstructData, reconstructData]
  | null => simp [deconstructData, reconstructData]
  | bin bytes =>
    simp only [deconstructData, reconstructData]
    rw [List.append_assoc, List.singleton_append, getD_append_cons]
  | arr xs =>
    simpa [deconstructData, reconstructData] using
      reconstructList_deconstructList xs bufs rest
  | map kvs =>
    simpa [deconstructData, reconstructData] using
      reconstructMap_deconstructMap kvs bufs rest

theorem reconstructList_deconstructList (xs : BDataList) (bufs rest : List (List Nat)) :
    reconstructList (deconstructList xs bufs).1 ((deconstructList xs bufs).2 ++ rest) = xs := by
  cases xs with
  | nil => simp [deconstructList, reconstructList]
  | cons d tl =>
    obtain ⟨e2, h2⟩ := deconstructList_extends tl (deconstructData d bufs).2
    have hd := reconstructData_deconstructData d bufs (e2 ++ rest)
    have htl := reconstructList_deconstructList tl (deconstructData d bufs).2 rest
    simp only [deconstructList, reconstructList, h2] at htl ⊢
    rw [← List.append_assoc] at hd
    rw [hd, htl]

theorem reconstructMap_deconstructMap (kvs : BDataMap) (bufs rest : List (List Nat)) :
    reconstructMap (deconstructMap kvs bufs).1 ((deconstructMap kvs bufs).2 ++ rest) = kvs := by
  cases kvs with
  | nil => simp [deconstructMap, reconstructMap]
  | cons k v tl =>
    obtain ⟨e2, h2⟩ := deconstructMap_extends tl (deconstructData v bufs).2
    have hd := reconstructData_deconstructData v bufs (e2 ++ rest)
    have htl := reconstructMap_deconstructMap tl (deconstructData v bufs).2 rest
    simp only [deconstructMap, reconstructMap, h2] at htl ⊢
    rw [← List.append_assoc] at hd
    rw [hd, htl]
end

end Binary

/-- C1: Binary codec round-trip law.  For every data tree `D` built from
arrays, maps, text, numbers, booleans and raw binary blobs nested at
arbitrary depth, reconstructing from the skeleton and ordered buffer list
produced by deconstructing the packet `{type: 'event', data: D}` restores
the original data tree:
`reconstruct_packet(deconstruct_packet(p).packet, deconstruct_packet(p).buffers).data == D`. -/
theorem binary_roundtrip_law (D : Binary.BData) :
    (Binary.reconstruct_packet
        (Binary.deconstruct_packet ⟨"event", D⟩).packet
        (Binary.deconstruct_packet ⟨"event", D⟩).buffers).data = D := by
  have h := Binary.reconstructData_deconstructData D [] []
  simpa [Binary.reconstruct_packet, Binary.deconstruct_packet] using h

/-- C3: the claim says close() in `opening`/`open` runs the kind-specific
teardown and then reaches `closed`, emitting `close`.  The code cannot do
this for any registered transport kind: `Transport.do_close` raises
`NotImplementedError` (its body carries a FIXME saying subclasses do not
implement it) and no subclass overrides it, so `close()` on an `open` or
`opening` transport of either kind propagates the raise and never reaches
`on_close`; only the no-op half of the claim holds (last conjunct). -/
theorem close_raises_not_implemented :
    Engine.close .xhrPolling { Engine.sampleState with ready_state := some "open" }
      = .error "NotImplementedError" ∧
    Engine.close .websocket { Engine.sampleState with ready_state := some "open" }
      = .error "NotImplementedError" ∧
    Engine.close .xhrPolling { Engine.sampleState with ready_state := some "opening" }
      = .error "NotImplementedError" ∧
    Engine.close .websocket { Engine.sampleState with ready_state := some "closed" }
      = .ok { Engine.sampleState with ready_state := some "closed" } :=
  ⟨rfl, rfl, rfl, rfl⟩

/-- C6: `Transport.send` raises `ValueError('Transport not open')` and
performs no write whenever `ready_state` is not `open` (the write path is
the `ok` payload, so an `error` result is exactly a call with no write);
when `ready_state` is `open` a single packet is normalized to a
one-element list and the packet list is handed to the write path. -/
theorem send_requires_open (st : Engine.EngineState) (p : Engine.EnginePacket)
    (ps : List Engine.EnginePacket) :
    (st.ready_state ≠ some "open" →
      Engine.send st (.inl p) = .error "Transport not open" ∧
      Engine.send st (.inr ps) = .error "Transport not open") ∧
    (st.ready_state = some "open" →
      Engine.send st (.inl p) = .ok [p] ∧
      Engine.send st (.inr ps) = .ok ps) := by
  constructor <;> intro h <;> simp [Engine.send, h]

/-- C6 witness: a closed transport refuses to send, an open one hands the
normalized list to the write path. -/
theorem send_requires_open_witness :
    Engine.send { Engine.sampleState with ready_state := some "closed" } (.inl Engine.pktMsgA)
      = .error "Transport not open" ∧
    Engine.send { Engine.sampleState with ready_state := some "open" } (.inl Engine.pktMsgA)
      = .ok [Engine.pktMsgA] :=
  ⟨((send_requires_open { Engine.sampleState with ready_state := some "closed" }
      Engine.pktMsgA []).1 (by decide)).1,
   ((send_requires_open { Engine.sampleState with ready_state := some "open" }
      Engine.pktMsgA []).2 rfl).1⟩

/-- C7: the claim says both transport kinds omit the port exactly at the
scheme default (80 for http/ws, 443 for https/wss).  `WebsocketTransport.uri`
compares the secure port against 433 instead of 443, so a secure
websocket transport configured with the true default 443 renders `:443`
in its URI, and one configured with 433 omits the port; the polling
transport behaves as claimed (last three conjuncts). -/
theorem websocket_wss_port_typo :
    Engine.websocketPortSegment true (some 443) = ":443" ∧
    Engine.websocketPortSegment true (some 433) = "" ∧
    Engine.pollingPortSegment true (some 443) = "" ∧
    Engine.pollingPortSegment false (some 80) = "" ∧
    Engine.pollingPortSegment false (some 8000) = ":8000" :=
  ⟨rfl, rfl, rfl, rfl, rfl⟩

/-- C8 counterexample: the claim says, for both transport kinds, that
`b64=1` is present exactly when binary is unsupported and `sid` is not
yet known.  On the websocket transport with binary unsupported and a
known sid, the flag is nevertheless present. -/
theorem websocket_b64_with_sid_counterexample :
    (Engine.websocketUriQuery 3 1000 false (some "abc")).b64 = true ∧
    (some "abc" : Option String) ≠ none :=
  ⟨rfl, by decide⟩

/-- C8 amended: the polling transport adds `b64=1` exactly when binary is
unsupported and `sid` is still unknown, and adds `sid` exactly once it is
known; the websocket transport adds `b64=1` exactly when binary is
unsupported, with no condition on `sid`, and adds `sid` once it is known
and non-empty (Python truthiness). -/
theorem uri_query_flags (pv t : Nat) (sb : Bool) (sid : Option String) :
    ((Engine.pollingUriQuery pv t sb sid).b64 = true ↔ sb = false ∧ sid = none) ∧
    (Engine.pollingUriQuery pv t sb sid).sid = sid ∧
    ((Engine.websocketUriQuery pv t sb sid).b64 = true ↔ sb = false) ∧
    (Engine.websocketUriQuery pv t sb sid).sid = (if Engine.sidTruthy sid then sid else none) := by
  refine ⟨?_, ?_, ?_, ?_⟩
  · cases sb <;> cases sid <;> simp [Engine.pollingUriQuery]
  · cases sb <;> cases sid <;> simp [Engine.pollingUriQuery]
  · cases sb <;> cases sid
    all_goals simp [Engine.websocketUriQuery, Engine.sidTruthy]
    all_goals try (split <;> simp)
  · cases sb <;> cases sid
    all_goals simp [Engine.websocketUriQuery, Engine.sidTruthy]
    all_goals try (split <;> simp_all)

/-- C8 amended witness: with binary unsupported and no sid yet, the
polling query carries the flag. -/
theorem uri_query_flags_witness :
    (Engine.pollingUriQuery 3 5 false none).b64 = true :=
  (uri_query_flags 3 5 false none).1.mpr ⟨rfl, rfl⟩

/-- C10: `XHRPollingTransport.do_poll` hands a 2xx response to the load
handler, raises `xhr request failed` from 400 upward, and silently
discards a 3xx response (neither handler runs); `do_write` raises
`xhr request failed` for every status outside the 2xx range, 3xx
included. -/
theorem xhr_3xx_poll_ignored_write_fails (status : Nat) :
    (300 ≤ status → status < 400 → Engine.xhr_do_poll status = .ignored) ∧
    (Engine.xhr_do_write status = some "xhr request failed" ↔ ¬(200 ≤ status ∧ status < 300)) := by
  constructor
  · intro h1 h2
    have ha : ¬(200 ≤ status ∧ status < 300) := by omega
    have hb : ¬(400 ≤ status) := by omega
    simp [Engine.xhr_do_poll, ha, hb]
  · by_cases h : 200 ≤ status ∧ status < 300 <;> simp [Engine.xhr_do_write, h]

/-- C10 witness: a 302 redirect is discarded by the poll path and
reported by the write path. -/
theorem xhr_3xx_poll_ignored_write_fails_witness :
    Engine.xhr_do_poll 302 = .ignored ∧
    Engine.xhr_do_write 302 = some "xhr request failed" :=
  ⟨(xhr_3xx_poll_ignored_write_fails 302).1 (by omega) (by omega),
   (xhr_3xx_poll_ignored_write_fails 302).2.mpr (by omega)⟩

namespace Engine

theorem dispatchRun_nil (s : EngineState) : dispatchRun s [] = s := by
  simp [dispatchRun]

theorem dispatchRun_cons (s : EngineState) (p : EnginePacket) (tl : List EnginePacket) :
    dispatchRun (onPacket s p) tl = dispatchRun s (p :: tl) := by
  simp [dispatchRun, onPacket, List.replicate_succ, List.append_assoc]

theorem onDataLoop_open_no_close (st : EngineState) (ps : List EnginePacket)
    (hopen : st.ready_state = some "open") (hps : ∀ p ∈ ps, p.type_ ≠ "close") :
    onDataLoop st ps = (dispatchRun st ps, false) := by
  induction ps generalizing st with
  | nil => simp [onDataLoop, dispatchRun_nil]
  | cons p tl ih =>
    have hne : p.type_ ≠ "close" := hps p (by simp)
    have htl : ∀ q ∈ tl, q.type_ ≠ "close" := fun q hq => hps q (by simp [hq])
    simp only [onDataLoop]
    rw [show (if st.ready_state = some "opening" then onOpen st else st) = st from by
      simp [hopen]]
    rw [if_neg hne, ih (onPacket st p) (by simp [onPacket, hopen]) htl, dispatchRun_cons]

theorem onDataLoop_opening_no_close (st : EngineState) (p : EnginePacket)
    (tl : List EnginePacket) (hopening : st.ready_state = some "opening")
    (hps : ∀ q ∈ p :: tl, q.type_ ≠ "close") :
    onDataLoop st (p :: tl) = (dispatchRun (onOpen st) (p :: tl), false) := by
  have hne : p.type_ ≠ "close" := hps p (by simp)
  have htl : ∀ q ∈ tl, q.type_ ≠ "close" := fun q hq => hps q (by simp [hq])
  simp only [onDataLoop]
  rw [if_pos hopening, if_neg hne,
    onDataLoop_open_no_close (onPacket (onOpen st) p) tl (by simp [onPacket, onOpen]) htl,
    dispatchRun_cons]

theorem onDataLoop_close (st : EngineState) (pre post : List EnginePacket)
    (hopen : st.ready_state = some "open")
    (hpre : ∀ p ∈ pre, p.type_ ≠ "close") :
    onDataLoop st (pre ++ pktClose :: post) = (pollingOnClose (dispatchRun st pre), true) := by
  induction pre generalizing st with
  | nil =>
    simp only [List.nil_append, onDataLoop]
    rw [show (if st.ready_state = some "opening" then onOpen st else st) = st from by
      simp [hopen]]
    rw [if_pos (by simp [pktClose]), dispatchRun_nil]
  | cons p tl ih =>
    have hne : p.type_ ≠ "close" := hpre p (by simp)
    have htl : ∀ q ∈ tl, q.type_ ≠ "close" := fun q hq => hpre q (by simp [hq])
    simp only [List.cons_append, onDataLoop]
    rw [show (if st.ready_state = some "opening" then onOpen st else st) = st from by
      simp [hopen]]
    simp only [List.append_eq]
    rw [if_neg hne, ih (onPacket st p) (by simp [onPacket, hopen]) htl, dispatchRun_cons]

end Engine

/-- C2 counterexample: the claim says the close-typed packet in the
payload `[message a, close, message b]` closes the transport.  On the
code, `PollingTransport.on_data` does dispatch only `a` and does halt,
but the `on_close` it invokes is the polling override, which only writes
a close packet to the peer and never touches `ready_state`: the transport
is left `open`, not `closed`. -/
theorem close_packet_state_counterexample :
    (Engine.pollingOnData Engine.openPollingState
        [Engine.pktMsgA, Engine.pktClose, Engine.pktMsgB]).2.dispatched = [Engine.pktMsgA] ∧
    (Engine.pollingOnData Engine.openPollingState
        [Engine.pktMsgA, Engine.pktClose, Engine.pktMsgB]).2.ready_state ≠ some "closed" := by
  refine ⟨rfl, ?_⟩
  decide

/-- C2 amended: for every payload of the shape `pre ++ close :: post`
decoded by an open polling transport, with no close-typed packet in
`pre`, `on_data` dispatches exactly the packets of `pre` in order, then
invokes the polling `on_close` - which writes one close-typed packet to
the peer, leaving `ready_state` equal to `open` rather than `closed` -
and halts (returns `False`), so no packet of `post` is ever dispatched. -/
theorem close_packet_halts_payload (st : Engine.EngineState)
    (pre post : List Engine.EnginePacket)
    (hopen : st.ready_state = some "open")
    (hpre : ∀ p ∈ pre, p.type_ ≠ "close") :
    (Engine.pollingOnData st (pre ++ Engine.pktClose :: post)).1 = .ok (some false) ∧
    (Engine.pollingOnData st (pre ++ Engine.pktClose :: post)).2.dispatched
      = st.dispatched ++ pre ∧
    (Engine.pollingOnData st (pre ++ Engine.pktClose :: post)).2.written
      = st.written ++ [[Engine.pktClose]] ∧
    (Engine.pollingOnData st (pre ++ Engine.pktClose :: post)).2.ready_state = some "open" := by
  have hloop := Engine.onDataLoop_close st pre post hopen hpre
  simp only [Engine.pollingOnData, hloop]
  simp [Engine.pollingOnClose, Engine.dispatchRun, Engine.pollingWrite, hopen]

/-- C2 amended witness: the scenario payload `[message a, close,
message b]` on an open transport dispatches only `a`, writes the close
packet, halts, and leaves the transport `open`. -/
theorem close_packet_halts_payload_witness :
    (Engine.pollingOnData Engine.openPollingState
        ([Engine.pktMsgA] ++ Engine.pktClose :: [Engine.pktMsgB])).1 = .ok (some false) ∧
    (Engine.pollingOnData Engine.openPollingState
        ([Engine.pktMsgA] ++ Engine.pktClose :: [Engine.pktMsgB])).2.dispatched
      = Engine.openPollingState.dispatched ++ [Engine.pktMsgA] ∧
    (Engine.pollingOnData Engine.openPollingState
        ([Engine.pktMsgA] ++ Engine.pktClose :: [Engine.pktMsgB])).2.written
      = Engine.openPollingState.written ++ [[Engine.pktClose]] ∧
    (Engine.pollingOnData Engine.openPollingState
        ([Engine.pktMsgA] ++ Engine.pktClose :: [Engine.pktMsgB])).2.ready_state
      = some "open" :=
  close_packet_halts_payload Engine.openPollingState [Engine.pktMsgA] [Engine.pktMsgB]
    rfl (by decide)

/-- C9: when `on_data` finishes its payload loop without meeting a
close-typed packet and the transport is `open` with no session id, the
`ValueError` protocol-violation raise fires before the `polling` flag is
cleared and before `poll_complete` is emitted, so the transport aborts
instead of continuing its poll loop.  The `open` state at the check is
reached either by already being `open` or by the first packet of a
non-empty payload promoting an `opening` transport. -/
theorem open_no_sid_fatal (st : Engine.EngineState) (payload : List Engine.EnginePacket)
    (hnoclose : ∀ p ∈ payload, p.type_ ≠ "close")
    (hsid : st.sid = none)
    (hrs : st.ready_state = some "open" ∨ (st.ready_state = some "opening" ∧ payload ≠ [])) :
    (Engine.pollingOnData st payload).1
      = .error "sid is none after on_open, forgot setting sid in engine_socket?" ∧
    (Engine.pollingOnData st payload).2.polling = st.polling ∧
    (Engine.pollingOnData st payload).2.emitted.count "poll_complete"
      = st.emitted.count "poll_complete" := by
  rcases hrs with hopen | ⟨hopening, hne⟩
  · have hloop := Engine.onDataLoop_open_no_close st payload hopen hnoclose
    simp only [Engine.pollingOnData, hloop]
    simp [Engine.dispatchRun, hopen, hsid, List.count_append, List.count_replicate]
  · cases payload with
    | nil => exact absurd rfl hne
    | cons p tl =>
      have hloop := Engine.onDataLoop_opening_no_close st p tl hopening hnoclose
      simp only [Engine.pollingOnData, hloop]
      simp [Engine.dispatchRun, Engine.onOpen, hsid, List.count_append, List.count_replicate]

/-- C9 witness: an open polling transport without a session id that
receives a plain message payload hits the fatal raise with its polling
flag still set and no new `poll_complete` emission. -/
theorem open_no_sid_fatal_witness :
    (Engine.pollingOnData Engine.openNoSidState [Engine.pktMsgA]).1
      = .error "sid is none after on_open, forgot setting sid in engine_socket?" ∧
    (Engine.pollingOnData Engine.openNoSidState [Engine.pktMsgA]).2.polling
      = Engine.openNoSidState.polling ∧
    (Engine.pollingOnData Engine.openNoSidState [Engine.pktMsgA]).2.emitted.count "poll_complete"
      = Engine.openNoSidState.emitted.count "poll_complete" :=
  open_no_sid_fatal Engine.openNoSidState [Engine.pktMsgA] (by decide) rfl (Or.inl rfl)

namespace Engine

theorem fireEvent_pauseStateAt (a b : Bool) (e : PauseEv) :
    fireEvent (pauseStateAt a b) e
      = pauseStateAt (a || decide (e = .pollComplete)) (b || decide (e = .drain)) := by
  cases a <;> cases b <;> cases e <;> decide

theorem runPause_char (evs : List PauseEv) (a b : Bool) :
    runPause (pauseStateAt a b) evs
      = pauseStateAt (a || decide (PauseEv.pollComplete ∈ evs))
          (b || decide (PauseEv.drain ∈ evs)) := by
  induction evs generalizing a b with
  | nil => simp [runPause]
  | cons e tl ih =>
    rw [runPause, fireEvent_pauseStateAt, ih]
    congr 1
    · cases e <;> simp [List.mem_cons, Bool.or_assoc]
    · cases e <;> simp [List.mem_cons, Bool.or_assoc]

end Engine

/-- C4: on a polling transport with a poll in flight (`polling` true) and
a pending write (`writable` false), `pause(nowait=False, timeout=30)`
registers one once-listener for `poll_complete` and one for `drain`; the
gevent event the caller blocks on is not signalled under any event
sequence in which the two have not both fired, and once both have fired
(in either order, possibly interleaved with repeats) the context reaches
`ready_state = paused` with the event signalled, so the blocking wait
returns without error. -/
theorem pause_completes_after_both (evs : List Engine.PauseEv) :
    (¬(Engine.PauseEv.pollComplete ∈ evs ∧ Engine.PauseEv.drain ∈ evs) →
      (Engine.runPause (Engine.pauseSetup true false false) evs).event_set = false) ∧
    (Engine.PauseEv.pollComplete ∈ evs → Engine.PauseEv.drain ∈ evs →
      (Engine.runPause (Engine.pauseSetup true false false) evs).ready_state = "paused" ∧
      Engine.pauseWait (Engine.runPause (Engine.pauseSetup true false false) evs) = .ok ()) := by
  have hc : Engine.pauseStateAt false false = Engine.pauseSetup true false false := rfl
  have h := Engine.runPause_char evs false false
  rw [hc] at h
  simp only [Bool.false_or] at h
  constructor
  · intro hn
    rw [h]
    by_cases h1 : Engine.PauseEv.pollComplete ∈ evs <;>
      by_cases h2 : Engine.PauseEv.drain ∈ evs
    · exact absurd ⟨h1, h2⟩ hn
    · rw [decide_eq_true h1, decide_eq_false h2]
      rfl
    · rw [decide_eq_false h1, decide_eq_true h2]
      rfl
    · rw [decide_eq_false h1, decide_eq_false h2]
      rfl
  · intro h1 h2
    rw [h, decide_eq_true h1, decide_eq_true h2]
    exact ⟨rfl, rfl⟩

/-- C4 witness: firing only `poll_complete` leaves the pause incomplete;
firing `poll_complete` and then `drain` reaches `paused` and lets the
wait return without error. -/
theorem pause_completes_after_both_witness :
    (Engine.runPause (Engine.pauseSetup true false false) [Engine.PauseEv.pollComplete]).event_set
      = false ∧
    (Engine.runPause (Engine.pauseSetup true false false)
        [Engine.PauseEv.pollComplete, Engine.PauseEv.drain]).ready_state = "paused" ∧
    Engine.pauseWait (Engine.runPause (Engine.pauseSetup true false false)
        [Engine.PauseEv.pollComplete, Engine.PauseEv.drain]) = .ok () :=
  ⟨(pause_completes_after_both [Engine.PauseEv.pollComplete]).1 (by decide),
   ((pause_completes_after_both [Engine.PauseEv.pollComplete, Engine.PauseEv.drain]).2
      (by decide) (by decide)).1,
   ((pause_completes_after_both [Engine.PauseEv.pollComplete, Engine.PauseEv.drain]).2
      (by decide) (by decide)).2⟩

/-- C5: when `pause(nowait=False, timeout=t)` finds a poll in flight or a
pending write and neither `poll_complete` nor `drain` ever fires, the
event the caller waits on is never signalled, so the wait times out and
the call raises `RuntimeWarning('The pause timeout')`, leaving
`ready_state` at `pausing` (no rollback). -/
theorem pause_timeout_leaves_pausing (polling writable : Bool)
    (h : polling = true ∨ writable = false) :
    Engine.pauseWait (Engine.pauseSetup polling writable false) = .error "The pause timeout" ∧
    (Engine.pauseSetup polling writable false).ready_state = "pausing" := by
  rcases h with h | h
  · subst h
    cases writable <;> exact ⟨rfl, rfl⟩
  · subst h
    cases polling <;> exact ⟨rfl, rfl⟩

/-- C5 witness: the claim scenario, a poll in flight and a pending
write. -/
theorem pause_timeout_leaves_pausing_witness :
    Engine.pauseWait (Engine.pauseSetup true false false) = .error "The pause timeout" ∧
    (Engine.pauseSetup true false false).ready_state = "pausing" :=
  pause_timeout_leaves_pausing true false (Or.inl rfl)
